import Mathlib

/-
Verification of the quantum-launcher (`src/main.cpp`) against its
natural-language specification.

The program is modelled by a shallow embedding: the filesystem is explicit
state (a map from paths to file contents plus a set of directories), the
HTTP transport is an oracle `net : String → String` (empty string = transport
failure, as in `curlGet`), and JSON parsing is an oracle `parse… : String →
Option …` (the spec treats both as opaque collaborators).  Every fetched URL
is logged so that "network call" claims can be stated.  Code paths on which
the C++ program hits a rapidjson assertion / dereferences an uninitialized
document (e.g. `rules[0]` on an empty array, `document["latest"]` on an
unparsed document) are modelled by `Option` with `none`.

The embedding follows the non-windows (`linux`) build of `main.cpp`; the
windows/non-windows difference that a claim depends on (the classpath
separator) is kept as an explicit boolean parameter.
-/

/-! ## String and path helpers -/

/-- Character list of the parent path: models `std::filesystem::path::parent_path`
(lines 120–124 of main.cpp) — everything before the last `/`. -/
def dirnameList (l : List Char) : List Char :=
  ((l.reverse.dropWhile (fun c => c ≠ '/')).drop 1).reverse

/-- Parent path of a path string (models `filePath.parent_path()`). -/
def parentPath (s : String) : String :=
  ⟨dirnameList s.data⟩

/-- The chain of a path and all of its ancestors, outermost last.  Models the
set of directories that `std::filesystem::create_directories` brings into
existence.  `fuel` bounds the recursion (each parent is strictly shorter). -/
def parentChain : Nat → String → List String
  | 0, _ => []
  | n + 1, p => if p = "" then [] else p :: parentChain n (parentPath p)

/-- First two characters of a string: models `objHash.substr(0, 2)`
(line 151 of main.cpp). -/
def substr2 (s : String) : String :=
  ⟨s.data.take 2⟩

/-! ## Filesystem model -/

/-- The filesystem: file contents by path, and the set of directories. -/
structure FS where
  files : String → Option String
  dirs : String → Bool

/-- The empty filesystem (a fresh program directory tree). -/
def emptyFS : FS :=
  { files := fun _ => none, dirs := fun _ => false }

/-- Models `FileExists` (line 365): the path is present as a regular file. -/
def FileExists (fs : FS) (p : String) : Bool :=
  (fs.files p).isSome

/-- Models `DirectoryExists` (line 349). -/
def DirectoryExists (fs : FS) (p : String) : Bool :=
  fs.dirs p

/-- Record a single directory as existing. -/
def addDir (fs : FS) (p : String) : FS :=
  { fs with dirs := fun q => if q == p then true else fs.dirs q }

/-- Record a list of directories as existing. -/
def addDirs (fs : FS) (ps : List String) : FS :=
  ps.foldl addDir fs

/-- Models `CreateDirectoryIfNotExists` (line 355): check-then-act; on the
create path, `std::filesystem::create_directories` creates the directory and
all missing ancestors. -/
def CreateDirectoryIfNotExists (fs : FS) (p : String) : FS :=
  if DirectoryExists fs p then fs else addDirs fs (parentChain (p.data.length + 1) p)

/-- Models `saveStringToFile` (line 431): `std::fstream(path, std::ios::out)`
creates or truncates the file and writes the string. -/
def saveStringToFile (fs : FS) (content p : String) : FS :=
  { fs with files := fun q => if q == p then some content else fs.files q }

/-- Models `CreateFileIfNotExists` (line 371): no-op when the file exists,
otherwise an empty file is created. -/
def CreateFileIfNotExists (fs : FS) (p : String) : FS :=
  if FileExists fs p then fs else saveStringToFile fs "" p

/-- Models `saveJsonToFile` (line 413): `CreateFileIfNotExists` followed by a
write of the serialized document (here: the raw body that was parsed). -/
def saveJsonToFile (fs : FS) (body p : String) : FS :=
  saveStringToFile (CreateFileIfNotExists fs p) body p

/-- Models `readFileContents` (line 442): returns the contents, or `""` when
the file cannot be opened. -/
def readFileContents (fs : FS) (p : String) : String :=
  (fs.files p).getD ""

/-! ## Data model (spec §3, as read by main.cpp via rapidjson) -/

/-- A platform rule: `rules[i].os.name`. -/
structure Rule where
  osName : String

/-- A library artifact: `downloads.artifact.{path,url}`. -/
structure Artifact where
  path : String
  url : String

/-- A library entry of the descriptor: artifact plus optional `rules`. -/
structure Library where
  artifact : Artifact
  rules : Option (List Rule)

/-- The top-level version manifest: `latest.release` and the `versions`
array as (id, url) pairs. -/
structure VersionManifest where
  latestRelease : String
  versions : List (String × String)

/-- The fields of the version descriptor that the acquisition code reads. -/
structure VersionDescriptor where
  assetIndexUrl : String
  assetsId : String
  loggingFileId : String
  loggingUrl : String
  clientUrl : String
  libraries : List Library

/-- The `objects` member of the asset index: (logical name, hash) pairs in
member order. -/
abbrev AssetIndex := List (String × String)

/-- The compile-time platform constant (line 22 of main.cpp, non-windows
build): `const std::string os = "linux"`. -/
def os : String := "linux"

/-! ## Library pass (lines 116–144) -/

/-- Models the `allowed` computation of lines 131–136: `allowed` is the
negation of `HasMember("rules")`; when rules are present, `rules[0].os.name`
is compared with the platform constant.  Reading `rules[0]` of an empty
array is a rapidjson assertion failure, modelled by `none`. -/
def allowedFor (plat : String) (lib : Library) : Option Bool :=
  match lib.rules with
  | none => some true
  | some [] => none
  | some (r :: _) => some (r.osName == plat)

/-- One iteration of the library loop (lines 117–144) for a single library:
returns the new filesystem and the list of fetched URLs, or `none` on the
rapidjson-assertion path. -/
def libStep (net : String → String) (plat libBase : String) (lib : Library)
    (fs : FS) : Option (FS × List String) :=
  let libName := libBase ++ lib.artifact.path
  let libPath := parentPath libName
  let libUrl := lib.artifact.url
  if (libName != libBase ++ "/null") && !(FileExists fs libName) then
    match allowedFor plat lib with
    | none => none
    | some allowed =>
      if allowed then
        let fs1 := CreateDirectoryIfNotExists fs libPath
        let fs2 := CreateFileIfNotExists fs1 libName
        let fs3 := saveStringToFile fs2 (net libUrl) libName
        some (fs3, [libUrl])
      else some (fs, [])
  else some (fs, [])

/-- The whole library loop over the descriptor's library list. -/
def libPass (net : String → String) (plat libBase : String) :
    List Library → FS → Option (FS × List String)
  | [], fs => some (fs, [])
  | lib :: rest, fs =>
    match libStep net plat libBase lib fs with
    | none => none
    | some (fs1, log1) =>
      match libPass net plat libBase rest fs1 with
      | none => none
      | some (fs2, log2) => some (fs2, log1 ++ log2)

/-! ## Asset pass (lines 145–160) -/

/-- The shard directory of an asset object (line 152). -/
def assetObjFolder (pd hash : String) : String :=
  pd ++ "/assets/objects/" ++ substr2 hash ++ "/"

/-- The content-addressed file path of an asset object (line 153). -/
def assetObjFile (pd hash : String) : String :=
  assetObjFolder pd hash ++ hash

/-- The download URL of an asset object (line 157). -/
def assetUrl (hash : String) : String :=
  "https://resources.download.minecraft.net/" ++ substr2 hash ++ "/" ++ hash

/-- One iteration of the asset loop (lines 149–159) for a single object. -/
def assetStep (net : String → String) (pd hash : String) (fs : FS) :
    FS × List String :=
  let objFolder := assetObjFolder pd hash
  let objFile := objFolder ++ hash
  let fs1 := CreateDirectoryIfNotExists fs objFolder
  let fs2 := CreateFileIfNotExists fs1 objFile
  let fs3 := saveStringToFile fs2 (net (assetUrl hash)) objFile
  (fs3, [assetUrl hash])

/-- The asset loop over all objects of the asset index. -/
def assetLoop (net : String → String) (pd : String) :
    AssetIndex → FS → FS × List String
  | [], fs => (fs, [])
  | (_, h) :: rest, fs =>
    let r1 := assetStep net pd h fs
    let r2 := assetLoop net pd rest r1.1
    (r2.1, r1.2 ++ r2.2)

/-- The asset pass (lines 145–160): gated on the assets root directory not
existing; inside the gate, the assets root is created and every object of
the index is fetched. -/
def assetPass (net : String → String) (pd : String) (objects : AssetIndex)
    (fs : FS) : FS × List String :=
  if !(DirectoryExists fs (pd ++ "/assets")) then
    assetLoop net pd objects (CreateDirectoryIfNotExists fs (pd ++ "/assets"))
  else (fs, [])

/-! ## Manifest resolution (lines 46–58, 95–104) -/

/-- The well-known manifest URL (line 46). -/
def manifestUrl : String :=
  "https://launchermeta.mojang.com/mc/game/version_manifest.json"

/-- Models lines 46–53: fetch the manifest; if the body is empty the branch
body is empty in the source (only the comment `// read from
manifest_cache.json`), so no document is produced and the filesystem is
untouched; otherwise parse and persist `manifest_cache.json`. -/
def resolveManifestStep (net : String → String)
    (parseManifest : String → Option VersionManifest) (pd : String)
    (fs : FS) : Option VersionManifest × FS × List String :=
  let body := net manifestUrl
  if body == "" then
    (none, fs, [manifestUrl])
  else
    (parseManifest body, saveJsonToFile fs body (pd ++ "/manifest_cache.json"),
      [manifestUrl])

/-- Models the version search loop of lines 95–102: the first manifest entry
whose id equals the requested version; `none` when no entry matches, in
which case the source leaves `versionJson` as a default-constructed (Null)
document. -/
def resolveVersion (m : VersionManifest) (v : String) : Option String :=
  (m.versions.find? (fun p => p.fst == v)).map Prod.snd

/-- The config marker file checked at line 86. -/
def configPath (pd version : String) : String :=
  pd ++ "/versions/" ++ version ++ "/" ++ version ++ ".config"

/-! ## Download branch and acquisition phase (lines 86–161) -/

/-- Models the download branch (lines 89–160): create the config marker,
resolve the version, fetch and parse the descriptor and the asset index,
persist the index json / descriptor json / logging config / client jar,
then run the library pass and the asset pass.  `none` models the
rapidjson-assertion paths (unresolved version, failed parse, empty rules
array). -/
def downloadBranch (net : String → String)
    (parseDescriptor : String → Option VersionDescriptor)
    (parseAssets : String → Option AssetIndex) (pd version : String)
    (m : VersionManifest) (fs : FS) :
    Option (VersionDescriptor × FS × List String) :=
  let fs0 := CreateFileIfNotExists fs (configPath pd version)
  match resolveVersion m version with
  | none => none
  | some durl =>
    let dbody := net durl
    match parseDescriptor dbody with
    | none => none
    | some vj =>
      let abody := net vj.assetIndexUrl
      match parseAssets abody with
      | none => none
      | some aobjs =>
        let fs1 := saveJsonToFile fs0 abody
          (pd ++ "/assets/indexes/" ++ vj.assetsId ++ ".json")
        let fs2 := saveJsonToFile fs1 dbody
          (pd ++ "/versions/" ++ version ++ "/" ++ version ++ ".json")
        let tempPath := pd ++ "/versions/" ++ version ++ "/logging-" ++ vj.loggingFileId
        let fs3 := CreateFileIfNotExists fs2 tempPath
        let fs4 := saveStringToFile fs3 (net vj.loggingUrl) tempPath
        let fs5 := saveStringToFile fs4 (net vj.clientUrl)
          (pd ++ "/versions/" ++ version ++ "/" ++ version ++ ".jar")
        match libPass net os (pd ++ "/versions/" ++ version ++ "/libraries/")
            vj.libraries fs5 with
        | none => none
        | some (fs6, liblog) =>
          let r := assetPass net pd aobjs fs6
          some (vj, r.1, [durl, vj.assetIndexUrl, vj.loggingUrl, vj.clientUrl]
            ++ liblog ++ r.2)

/-- Models the acquisition phase (the branch at line 86): when the config
marker exists, the cached descriptor json is read and parsed and no fetch
is issued; otherwise the download branch runs. -/
def acquisitionPhase (net : String → String)
    (parseDescriptor : String → Option VersionDescriptor)
    (parseAssets : String → Option AssetIndex) (pd version : String)
    (m : VersionManifest) (fs : FS) :
    Option (Option VersionDescriptor × FS × List String) :=
  if FileExists fs (configPath pd version) then
    some (parseDescriptor (readFileContents fs
      (pd ++ "/versions/" ++ version ++ "/" ++ version ++ ".json")), fs, [])
  else
    (downloadBranch net parseDescriptor parseAssets pd version m fs).map
      (fun r => (some r.1, r.2.1, r.2.2))

/-- Models main() from the manifest fetch through the end of acquisition
(lines 46–161): manifest resolution (crash when the document stays
unparsed, line 58), the alsoft.conf touch, the startup directory creation
of lines 62–65 — note that creating `<pd>/assets/indexes` also creates
`<pd>/assets` — the per-version directories of lines 81–83, and the
acquisition phase.  The requested version is the hardcoded `"1.19.4"`
(line 76). -/
def mainRun (net : String → String)
    (parseManifest : String → Option VersionManifest)
    (parseDescriptor : String → Option VersionDescriptor)
    (parseAssets : String → Option AssetIndex) (pd home : String)
    (fs : FS) : Option (FS × List String) :=
  match resolveManifestStep net parseManifest pd fs with
  | (none, _, _) => none
  | (some m, fs1, mlog) =>
    let fs2 := if os == "linux" then
        CreateFileIfNotExists fs1 (home ++ "/.config/alsoft.conf")
      else fs1
    if pd == "" then none
    else
      let fs3 := CreateDirectoryIfNotExists fs2 (pd ++ "/profiles")
      let fs4 := CreateDirectoryIfNotExists fs3 (pd ++ "/assets/indexes")
      let fs5 := CreateDirectoryIfNotExists fs4 (pd ++ "/assets/objects")
      let fs6 := CreateDirectoryIfNotExists fs5 (pd ++ "/versions")
      let version := "1.19.4"
      let fs7 := CreateDirectoryIfNotExists fs6 (pd ++ "/versions/" ++ version)
      let fs8 := CreateDirectoryIfNotExists fs7
        (pd ++ "/versions/" ++ version ++ "/libraries")
      let fs9 := CreateDirectoryIfNotExists fs8 (pd ++ "/profiles/" ++ version)
      match acquisitionPhase net parseDescriptor parseAssets pd version m fs9 with
      | none => none
      | some (_, fsA, alog) => some (fsA, mlog ++ alog)

/-! ## Classpath builder (lines 163–179, 487–509) -/

/-- Models `backslashesToForwardslashes` (line 487): each backslash becomes a
forward slash, every other character is copied. -/
def backslashesToForwardslashes (input : String) : String :=
  ⟨input.data.map (fun c => if c == '\\' then '/' else c)⟩

/-- Character loop of `escapeColon` (lines 499–509): the colon-escaping body
is commented out in the source, so every character is copied unchanged. -/
def escapeColonList : List Char → List Char
  | [] => []
  | c :: rest => c :: escapeColonList rest

/-- Models `escapeColon` (line 499). -/
def escapeColon (input : String) : String :=
  ⟨escapeColonList input.data⟩

/-- The platform classpath separator (lines 171–175): `;` on the windows
build, `:` otherwise. -/
def cpSep (win : Bool) : String :=
  if win then ";" else ":"

/-- Normalization applied to every classpath entry (lines 170 and 178). -/
def normPath (p : String) : String :=
  escapeColon (backslashesToForwardslashes p)

/-- Models the classpath accumulation of lines 163–178: for each library
full path that exists, append the normalized path and the separator; then
append the normalized version jar path. -/
def classPathCore (ex : String → Bool) (paths : List String) (jar : String)
    (win : Bool) : String :=
  (paths.foldl
    (fun acc p => if ex p then acc ++ normPath p ++ cpSep win else acc) "")
  ++ normPath jar

/-- The full on-disk path of one library artifact as built at lines 166–167. -/
def fullLibPath (pd version : String) (lib : Library) : String :=
  pd ++ "/versions/" ++ version ++ "/libraries/" ++ lib.artifact.path

/-- Models `std::filesystem::exists` as used at line 169 (true for files and
directories alike). -/
def pathExistsFS (fs : FS) (p : String) : Bool :=
  FileExists fs p || DirectoryExists fs p

/-- The classpath string of the run (before the surrounding `-cp "..."`
wrapper of line 179). -/
def classPathOf (fs : FS) (pd version : String) (libs : List Library)
    (win : Bool) : String :=
  classPathCore (pathExistsFS fs) (libs.map (fullLibPath pd version))
    (pd ++ "/versions/" ++ version ++ "/" ++ version ++ ".jar") win

/-- Spec-side restatement of the classpath contract (spec §4.3): the
normalized existing entries, each followed by the separator, then the
normalized jar with no trailing separator. -/
def classPathSpec (ex : String → Bool) (paths : List String) (jar : String)
    (win : Bool) : String :=
  ((paths.filter ex).map normPath).foldr
    (fun p acc => p ++ cpSep win ++ acc) (normPath jar)

/-! ## Argument templater (lines 458–461)

`replacePlaceholders` is `std::regex_replace(input, std::regex("\$\{" +
placeholder + "\}"), replacement)` with the default ECMAScript grammar.  For
a placeholder made of ordinary word characters — which every call site of
main.cpp uses — the compiled pattern matches exactly the literal token
`${placeholder}`, and `regex_replace` rewrites each leftmost occurrence with
the *format string* `replacement`, in which `$$` stands for a dollar sign
and `$&` for the whole match.  The embedding below models exactly that
domain (literal token matching plus the `$$`/`$&` format directives; the
remaining directives are not used by any theorem in this file). -/

/-- The literal token the compiled pattern matches: `${placeholder}`. -/
def placeholderToken (placeholder : String) : String :=
  "$\x7b" ++ placeholder ++ "\x7d"

/-- ECMAScript format-string expansion of the replacement (the `$$` and `$&`
directives), with `matched` the matched token. -/
def formatExpand (matched : List Char) : List Char → List Char
  | [] => []
  | c :: rest =>
    if c = '$' then
      match rest with
      | '$' :: rest2 => '$' :: formatExpand matched rest2
      | '&' :: rest2 => matched ++ formatExpand matched rest2
      | [] => [c]
      | c2 :: rest2 => c :: formatExpand matched (c2 :: rest2)
    else c :: formatExpand matched rest

/-- Leftmost replacement of every occurrence of `tok` by the expanded format
string `rep`, as `std::regex_replace` performs it.  `fuel` bounds the scan
(one unit per input position). -/
def replaceAllGo (tok rep : List Char) : Nat → List Char → List Char
  | 0, l => l
  | fuel + 1, l =>
    if tok.isPrefixOf l then
      formatExpand tok rep ++ replaceAllGo tok rep fuel (l.drop tok.length)
    else
      match l with
      | [] => []
      | c :: rest => c :: replaceAllGo tok rep fuel rest

/-- Models `replacePlaceholders` (line 458). -/
def replacePlaceholders (input placeholder replacement : String) : String :=
  ⟨replaceAllGo (placeholderToken placeholder).data replacement.data
    (input.data.length + 1) input.data⟩

/-- Spec-side pure textual substitution: like `replaceAllGo` but the value
is inserted verbatim, with no format-directive expansion. -/
def substituteGo (tok rep : List Char) : Nat → List Char → List Char
  | 0, l => l
  | fuel + 1, l =>
    if tok.isPrefixOf l then
      rep ++ substituteGo tok rep fuel (l.drop tok.length)
    else
      match l with
      | [] => []
      | c :: rest => c :: substituteGo tok rep fuel rest

/-- Spec-side restatement of the substitution contract (spec §4.4): replace
every occurrence of the literal token `${key}` with the value, textually. -/
def substituteSpec (input placeholder replacement : String) : String :=
  ⟨substituteGo (placeholderToken placeholder).data replacement.data
    (input.data.length + 1) input.data⟩

/-! ## Concrete scenario inputs (used by closed theorems and witnesses) -/

/-- Body of the manifest document in the end-to-end scenario. -/
def scMBody : String := "MB"

/-- Body of the version descriptor in the end-to-end scenario. -/
def scDBody : String := "DB"

/-- Body of the asset index in the end-to-end scenario. -/
def scABody : String := "AB"

/-- The transport oracle of the end-to-end scenario. -/
def scNet : String → String := fun u =>
  if u == manifestUrl then scMBody
  else if u == "https://durl" then scDBody
  else if u == "https://aurl" then scABody
  else "bin"

/-- The manifest of the end-to-end scenario: lists the requested version
`"1.19.4"` with its descriptor URL. -/
def scManifest : VersionManifest :=
  { latestRelease := "1.19.4", versions := [("1.19.4", "https://durl")] }

/-- The descriptor of the end-to-end scenario: one unconditional library and
one asset index. -/
def scDescriptor : VersionDescriptor :=
  { assetIndexUrl := "https://aurl"
    assetsId := "3"
    loggingFileId := "client-1.12.xml"
    loggingUrl := "https://logu"
    clientUrl := "https://cu"
    libraries := [{ artifact := { path := "a/a.jar", url := "https://libu" }, rules := none }] }

/-- Manifest parse oracle of the scenario. -/
def scParseM : String → Option VersionManifest := fun s =>
  if s == scMBody then some scManifest else none

/-- Descriptor parse oracle of the scenario. -/
def scParseD : String → Option VersionDescriptor := fun s =>
  if s == scDBody then some scDescriptor else none

/-- Asset-index parse oracle of the scenario: one object of hash `"aa11"`. -/
def scParseA : String → Option AssetIndex := fun s =>
  if s == scABody then some [("obj", "aa11")] else none

/-- A fresh acquisition run of the end-to-end scenario. -/
def scRun : Option (FS × List String) :=
  mainRun scNet scParseM scParseD scParseA "pd" "home" emptyFS

/-- A filesystem holding only a previously cached manifest copy. -/
def scCachedFS : FS :=
  saveStringToFile emptyFS "cached" "pd/manifest_cache.json"

/-- A library with no rules, for witnesses. -/
def wLibNoRules : Library :=
  { artifact := { path := "p", url := "u" }, rules := none }

/-- A library whose first rule names the linux platform, for witnesses. -/
def wLibRule : Library :=
  { artifact := { path := "p", url := "u" }, rules := some [{ osName := "linux" }] }

/-- A transport oracle with a fixed body, for witnesses. -/
def wNet : String → String := fun _ => "bin"

/-- A library already present on disk, for the idempotence witness. -/
def wLib : Library :=
  { artifact := { path := "a.jar", url := "u" }, rules := none }

/-- A filesystem where the artifact of `wLib` already exists. -/
def wFSlib : FS :=
  saveStringToFile emptyFS "x" "lb/a.jar"

/-- A filesystem where the asset object `aa11` and the assets root already
exist, for the idempotence witness. -/
def wFSassets : FS :=
  { files := fun q => if q == assetObjFile "pd" "aa11" then some "x" else none
    dirs := fun q => q == "pd/assets" }

/-- A filesystem where the config marker of version 1.19.4 exists, for the
idempotence witness. -/
def wFScfg : FS :=
  saveStringToFile emptyFS "" (configPath "pd" "1.19.4")

/-! ## Helper lemmas -/

/-- A file just written by `saveStringToFile` exists. -/
theorem FileExists_save (fs : FS) (c p : String) :
    FileExists (saveStringToFile fs c p) p = true := by
  unfold FileExists saveStringToFile
  simp

/-- The character copy loop of `escapeColon` is the identity. -/
theorem escapeColonList_id : ∀ l : List Char, escapeColonList l = l := by
  intro l
  induction l with
  | nil => rfl
  | cons c rest ih => simp [escapeColonList, ih]

/-- Format expansion is the identity on replacement strings that contain no
dollar sign. -/
theorem formatExpand_of_no_dollar (m : List Char) :
    ∀ rep : List Char, '$' ∉ rep → formatExpand m rep = rep := by
  intro rep
  induction rep with
  | nil => intro _; rfl
  | cons c rest ih =>
    intro h
    have hc : ¬(c = '$') := fun hc => h (hc ▸ List.mem_cons_self c rest)
    have hrest : '$' ∉ rest := fun hm => h (List.mem_cons_of_mem c hm)
    unfold formatExpand
    rw [if_neg hc, ih hrest]

/-- With a dollar-free replacement, regex replacement coincides with pure
textual substitution. -/
theorem replaceAllGo_eq_substituteGo (tok rep : List Char) (h : '$' ∉ rep) :
    ∀ fuel l, replaceAllGo tok rep fuel l = substituteGo tok rep fuel l := by
  intro fuel
  induction fuel with
  | zero => intro l; rfl
  | succ f ih =>
    intro l
    by_cases hp : tok.isPrefixOf l
    · unfold replaceAllGo substituteGo
      rw [if_pos hp, if_pos hp, formatExpand_of_no_dollar tok rep h, ih]
    · unfold replaceAllGo substituteGo
      rw [if_neg hp, if_neg hp]
      cases l with
      | nil => rfl
      | cons c rest => exact congrArg (c :: ·) (ih rest)

/-- Accumulator form of the classpath fold versus the spec-side fold. -/
theorem classPath_fold_spec (ex : String → Bool) (jar : String) (win : Bool) :
    ∀ (paths : List String) (acc : String),
      (paths.foldl
        (fun acc p => if ex p then acc ++ normPath p ++ cpSep win else acc) acc)
        ++ normPath jar
      = acc ++ classPathSpec ex paths jar win := by
  intro paths
  induction paths with
  | nil => intro acc; simp [classPathSpec]
  | cons p ps ih =>
    intro acc
    simp only [List.foldl_cons]
    by_cases h : ex p = true
    · rw [if_pos h, ih]
      simp [classPathSpec, List.filter_cons, h, String.append_assoc]
    · rw [if_neg h, ih]
      simp [classPathSpec, List.filter_cons, h]

/-! ## Claims -/

/-- Claim C1: during the library pass, a library with no `rules` member is
allowed; a library with a `rules` member is allowed exactly when the
platform name of the first rule equals the current platform identifier,
and disallowed otherwise. -/
theorem c1_allowed_rules :
    ∀ (plat : String) (lib : Library),
      (lib.rules = none → allowedFor plat lib = some true)
      ∧ (∀ (r : Rule) (rs : List Rule), lib.rules = some (r :: rs) →
          ((allowedFor plat lib = some true ↔ r.osName = plat)
           ∧ (allowedFor plat lib = some false ↔ r.osName ≠ plat))) := by
  intro plat lib
  constructor
  · intro h
    simp [allowedFor, h]
  · intro r rs h
    constructor
    · simp [allowedFor, h]
    · simp [allowedFor, h]

/-- Witness for C1: a rule-free library is allowed, and a library whose
first rule names the linux platform is allowed on linux. -/
theorem c1_allowed_rules_witness :
    (wLibNoRules.rules = none ∧ allowedFor "linux" wLibNoRules = some true)
    ∧ (wLibRule.rules = some ({ osName := "linux" } :: [])
       ∧ allowedFor "linux" wLibRule = some true) :=
  ⟨⟨rfl, (c1_allowed_rules "linux" wLibNoRules).1 rfl⟩,
   ⟨rfl, ((c1_allowed_rules "linux" wLibRule).2 { osName := "linux" } [] rfl).1.mpr rfl⟩⟩

/-- Claim C3: a requested version id absent from the manifest's `versions`
list resolves to the designated unresolved value (the source's loop leaves
the default-constructed Null document), without crashing. -/
theorem c3_unresolved_version :
    ∀ (m : VersionManifest) (v : String),
      v ∉ m.versions.map Prod.fst → resolveVersion m v = none := by
  intro m v h
  unfold resolveVersion
  rw [List.find?_eq_none.mpr]
  · rfl
  · intro x hx
    simp only [beq_iff_eq]
    intro heq
    exact h (heq ▸ List.mem_map_of_mem Prod.fst hx)

/-- Witness for C3: version 9.9 is absent from the scenario manifest and
resolves to none. -/
theorem c3_unresolved_version_witness :
    "9.9" ∉ scManifest.versions.map Prod.fst
    ∧ resolveVersion scManifest "9.9" = none :=
  ⟨by decide, c3_unresolved_version scManifest "9.9" (by decide)⟩

/-- Claim C9: the storage path of every asset object is derived from its
hash as `<root>/assets/objects/<hash[0:2]>/<hash>`, and that is the file
the asset step materializes and the URL it fetches; for hash
`"abcdef123"` the shard directory is `"ab"` and the file is
`assets/objects/ab/abcdef123`. -/
theorem c9_asset_path :
    (∀ (net : String → String) (pd h : String) (fs : FS),
        FileExists (assetStep net pd h fs).1
          (pd ++ "/assets/objects/" ++ substr2 h ++ "/" ++ h) = true
        ∧ (assetStep net pd h fs).2 = [assetUrl h])
    ∧ substr2 "abcdef123" = "ab"
    ∧ assetObjFolder "x" "abcdef123" = "x/assets/objects/ab/"
    ∧ assetObjFile "x" "abcdef123" = "x/assets/objects/ab/abcdef123" := by
  refine ⟨?_, by decide, by decide, by decide⟩
  intro net pd h fs
  exact ⟨FileExists_save _ (net (assetUrl h)) (assetObjFile pd h), rfl⟩

/-- Claim C10: `escapeColon` returns its input unchanged (the escaping body
is commented out in the source), so classpath entries containing `:`
appear verbatim in the classpath string. -/
theorem c10_escapeColon_identity :
    (∀ s : String, escapeColon s = s)
    ∧ classPathCore (fun _ => true) ["a:b"] "V" false = "a:b:V" := by
  constructor
  · intro s
    rcases s with ⟨l⟩
    simp [escapeColon, escapeColonList_id]
  · decide

/-- Claim C4 (idempotence): a library whose target path already exists as a
regular file triggers no fetch and leaves the filesystem unchanged; an
asset object whose target path already exists (so that, on a real
filesystem, the assets root directory above it also exists) triggers no
asset fetch at all; and against a fully populated tree (config marker
present) the acquisition phase issues zero network calls. -/
theorem c4_idempotent :
    (∀ (net : String → String) (plat libBase : String) (lib : Library) (fs : FS),
        FileExists fs (libBase ++ lib.artifact.path) = true →
        libStep net plat libBase lib fs = some (fs, []))
    ∧ (∀ (net : String → String) (pd h : String) (objs : AssetIndex) (fs : FS),
        FileExists fs (assetObjFile pd h) = true →
        DirectoryExists fs (pd ++ "/assets") = true →
        assetPass net pd objs fs = (fs, []))
    ∧ (∀ (net : String → String) (pD : String → Option VersionDescriptor)
          (pA : String → Option AssetIndex) (pd version : String)
          (m : VersionManifest) (fs : FS),
        FileExists fs (configPath pd version) = true →
        (acquisitionPhase net pD pA pd version m fs).map (fun r => r.2.2)
          = some []) := by
  refine ⟨?_, ?_, ?_⟩
  · intro net plat libBase lib fs h
    simp [libStep, h]
  · intro net pd h objs fs _ h2
    simp [assetPass, h2]
  · intro net pD pA pd version m fs h
    simp [acquisitionPhase, h]

/-- Witness for C4: an already-present library artifact is skipped, an
already-sharded asset tree triggers no asset fetch, and a populated
version directory yields an acquisition phase with an empty fetch log. -/
theorem c4_idempotent_witness :
    (FileExists wFSlib ("lb/" ++ wLib.artifact.path) = true
     ∧ libStep wNet "linux" "lb/" wLib wFSlib = some (wFSlib, []))
    ∧ (FileExists wFSassets (assetObjFile "pd" "aa11") = true
       ∧ DirectoryExists wFSassets ("pd" ++ "/assets") = true
       ∧ assetPass wNet "pd" [("o", "aa11")] wFSassets = (wFSassets, []))
    ∧ (FileExists wFScfg (configPath "pd" "1.19.4") = true
       ∧ (acquisitionPhase wNet (fun _ => (none : Option VersionDescriptor))
            (fun _ => (none : Option AssetIndex)) "pd" "1.19.4" scManifest
            wFScfg).map (fun r => r.2.2) = some []) :=
  ⟨⟨by decide, c4_idempotent.1 wNet "linux" "lb/" wLib wFSlib (by decide)⟩,
   ⟨by decide, by decide,
    c4_idempotent.2.1 wNet "pd" "aa11" [("o", "aa11")] wFSassets (by decide) (by decide)⟩,
   ⟨by decide,
    c4_idempotent.2.2 wNet (fun _ => none) (fun _ => none) "pd" "1.19.4"
      scManifest wFScfg (by decide)⟩⟩

/-- Claim C5: the classpath appends, for each library path that exists on
disk, its backslash-normalized path followed by the platform separator
(`;` on windows, `:` otherwise), and finally the version jar path with no
trailing separator; libraries `A.jar`, `B.jar` plus jar `V.jar` on the
non-windows platform yield `A.jar:B.jar:V.jar`. -/
theorem c5_classpath :
    (∀ (ex : String → Bool) (paths : List String) (jar : String) (win : Bool),
        classPathCore ex paths jar win = classPathSpec ex paths jar win)
    ∧ classPathCore (fun _ => true) ["A.jar", "B.jar"] "V.jar" false
        = "A.jar:B.jar:V.jar"
    ∧ classPathCore (fun _ => true) ["A.jar", "B.jar"] "V.jar" true
        = "A.jar;B.jar;V.jar" := by
  refine ⟨?_, by decide, by decide⟩
  intro ex paths jar win
  unfold classPathCore
  rw [classPath_fold_spec ex jar win paths ""]
  rcases classPathSpec ex paths jar win with ⟨l⟩
  rfl

/-- Claim C6, amended: for a value containing no `$`, `replacePlaceholders`
replaces every occurrence of the literal token `${key}` with the value by
pure textual substitution (no identifier-boundary awareness), and the
`--username`/`auth_player_name`/`alice` example yields exactly
`--username alice`.  (For values containing `$`, `std::regex_replace`
expands format directives instead — see the counterexample.) -/
theorem c6_substitution :
    (∀ (input placeholder replacement : String), '$' ∉ replacement.data →
        replacePlaceholders input placeholder replacement
          = substituteSpec input placeholder replacement)
    ∧ replacePlaceholders "--username $\x7bauth_player_name\x7d"
        "auth_player_name" "alice" = "--username alice" := by
  constructor
  · intro i p r h
    unfold replacePlaceholders substituteSpec
    rw [replaceAllGo_eq_substituteGo _ _ h]
  · decide

/-- Witness for C6: the replacement `"alice"` contains no dollar sign and
the regex-based substitution agrees with the textual one on the
`--username` template. -/
theorem c6_substitution_witness :
    '$' ∉ ("alice" : String).data
    ∧ replacePlaceholders "--username $\x7bauth_player_name\x7d"
        "auth_player_name" "alice"
      = substituteSpec "--username $\x7bauth_player_name\x7d"
        "auth_player_name" "alice" :=
  ⟨by decide,
   c6_substitution.1 "--username $\x7bauth_player_name\x7d"
     "auth_player_name" "alice" (by decide)⟩

/-- Counterexample for C6: with value `"$$"` the substitution is not
textual — `std::regex_replace` expands `$$` to a single `$`, so the result
differs from the textual substitution of the claim. -/
theorem c6_counterexample :
    replacePlaceholders "$\x7bk\x7d" "k" "$$" = "$"
    ∧ substituteSpec "$\x7bk\x7d" "k" "$$" = "$$"
    ∧ replacePlaceholders "$\x7bk\x7d" "k" "$$"
        ≠ substituteSpec "$\x7bk\x7d" "k" "$$" :=
  ⟨by decide, by decide, by decide⟩

/-- Claim C7, amended: the sentinel the library pass skips is the artifact
path `"/null"` — the comparison at line 130 is `libName != libBase +
"/null"` with `libName = libBase + path` — and for such a library no rule
evaluation, no directory or file creation and no fetch occur.  (A path of
exactly `"null"`, without the leading slash, is processed normally — see
the counterexample.) -/
theorem c7_null_sentinel :
    ∀ (net : String → String) (plat libBase : String) (lib : Library) (fs : FS),
      lib.artifact.path = "/null" →
      libStep net plat libBase lib fs = some (fs, []) := by
  intro net plat libBase lib fs h
  simp [libStep, h]

/-- Witness for C7: a library whose artifact path is `/null` is skipped
untouched even though its rules list is empty (evaluating the rules would
be the rapidjson-assertion `none` path). -/
theorem c7_null_sentinel_witness :
    ({ artifact := { path := "/null", url := "https://libu" },
       rules := some [] } : Library).artifact.path = "/null"
    ∧ libStep wNet "linux" "pd/versions/1.19.4/libraries/"
        { artifact := { path := "/null", url := "https://libu" }, rules := some [] }
        emptyFS = some (emptyFS, []) :=
  ⟨rfl,
   c7_null_sentinel wNet "linux" "pd/versions/1.19.4/libraries/"
     { artifact := { path := "/null", url := "https://libu" }, rules := some [] }
     emptyFS rfl⟩

/-- Counterexample for C7: a library whose declared artifact path is the
bare sentinel `"null"` is NOT skipped: the pass fetches its URL and
creates the file `.../libraries/null`, because the skip comparison is
against `libBase + "/null"` and `libBase` already ends in a slash. -/
theorem c7_counterexample :
    (libStep wNet "linux" "pd/versions/1.19.4/libraries/"
        { artifact := { path := "null", url := "https://libu" }, rules := none }
        emptyFS).map
      (fun r => (r.2, FileExists r.1 "pd/versions/1.19.4/libraries/null"))
    = some (["https://libu"], true) := by
  decide

/-- Claim C8 (code bug): on transport failure (empty manifest body) the
program performs NO fallback to the cached manifest — the failure branch
is empty in the source — leaving no manifest document even when
`manifest_cache.json` exists on disk with content; on success the manifest
IS persisted as the cache file before use. -/
theorem c8_manifest_fallback :
    (resolveManifestStep (fun _ => "") scParseM "pd" scCachedFS).1 = none
    ∧ (resolveManifestStep (fun _ => "") scParseM "pd" scCachedFS).2.1 = scCachedFS
    ∧ FileExists scCachedFS "pd/manifest_cache.json" = true
    ∧ (resolveManifestStep scNet scParseM "pd" emptyFS).1 = some scManifest
    ∧ FileExists (resolveManifestStep scNet scParseM "pd" emptyFS).2.1
        "pd/manifest_cache.json" = true :=
  ⟨rfl, rfl, by decide, rfl, by decide⟩

/-- Claim C2 (code bug): in the end-to-end scenario a fresh acquisition run
materializes the library file and the asset index file, but NOT the asset
object file `assets/objects/aa/aa11`: the startup directory creation has
already created the assets root, so the asset-pass guard is false and no
asset object is ever fetched (the resource URL is absent from the fetch
log). -/
theorem c2_fresh_run :
    scRun.map (fun r =>
      (FileExists r.1 "pd/versions/1.19.4/libraries/a/a.jar",
       FileExists r.1 "pd/assets/indexes/3.json",
       FileExists r.1 "pd/assets/objects/aa/aa11",
       DirectoryExists r.1 "pd/assets",
       r.2.contains (assetUrl "aa11")))
    = some (true, true, false, true, false) := by
  decide
